import Mathlib

/-!
# Edirom web component demo panel

A shallow embedding of `src/edirom-web-component-demo.js`: the host panel
`EdiromWebComponentDemo`, its `connectedCallback`, the `slotchange` handler and
the closures that handler creates (the `ResizeObserver` callback, the
`communicate-<attribute>-update` listener, the setter form's `submit`
listener).

The DOM is modelled by explicit state passing:

* an element's attributes are an ordered list of `(name, value)` pairs;
  `getAttribute` and `setAttribute` follow the DOM standard: on an HTML element
  the name is ASCII-lowercased first, `setAttribute` throws on a name that is
  not a valid attribute name, the first attribute of the resulting name is read
  or overwritten in place, and a new attribute is appended when there is none;
* an element's event listeners are a list in registration order; every call of
  `addEventListener` with a fresh closure adds one;
* the panel owns the text of its `<textarea>`, the children of
  `#wc-attribute-setters`, and the `ResizeObserver`s that observe
  `#web-component-container`.

What the embedded component itself does when one of its attributes is set is outside the file.
`textarea.scrollTop = textarea.scrollHeight` is layout and is not modelled.
-/

namespace EdiromDemo

/-! ## JavaScript values that get concatenated into strings -/

/-- What a payload field may hold, as seen by the `+` string concatenation. -/
inductive JSValue where
  | undefined
  | null
  | string (s : String)
  deriving DecidableEq

/-- The `ToString` conversion applied by `'...' + x`. -/
def JSValue.toJSString : JSValue → String
  | .undefined => "undefined"
  | .null => "null"
  | .string s => s

/-- A finite non-negative JavaScript number, given by the decimal digits that
`Number::toString` prints for it: the whole part and the digits after the
point (none for a whole number).  `contentRect.width` and `.height` are such
numbers. -/
structure JSNumber where
  whole : Nat
  frac : List Nat
  deriving DecidableEq

/-- The `ToString` conversion applied by `width + 'px'`. -/
def JSNumber.toJSString (x : JSNumber) : String :=
  if x.frac = [] then toString x.whole
  else toString x.whole ++ "." ++ String.mk (x.frac.map Nat.digitChar)

/-- A whole number of pixels. -/
def JSNumber.ofNat (n : Nat) : JSNumber := { whole := n, frac := [] }

/-- Recogniser of the form `<integer>px`: one or more decimal digits followed
by `px` and nothing else. -/
def isIntegerPx (s : String) : Bool :=
  match s.toList.reverse with
  | 'x' :: 'p' :: d :: ds => (d :: ds).all Char.isDigit
  | _ => false

/-! ## Attributes -/

/-- The attribute list of an element, in declaration order. -/
abbrev Attrs := List (String × String)

/-- The platform's `Element.getAttributeNames()`. -/
def getAttributeNames (attrs : Attrs) : List String :=
  attrs.map Prod.fst

/-- The value of the first attribute of the list whose name is exactly `a`,
`none` when there is none. -/
def attributeValue : Attrs → String → Option String
  | [], _ => none
  | (k, w) :: rest, a => if k = a then some w else attributeValue rest a

/-- Change the value of the first attribute whose name is exactly `a` in
place, else append a new attribute `a`. -/
def setAttributeValue : Attrs → String → String → Attrs
  | [], a, v => [(a, v)]
  | (k, w) :: rest, a, v =>
    if k = a then (k, v) :: rest else (k, w) :: setAttributeValue rest a v

/-- ASCII lowercase of a string: `A`-`Z` become `a`-`z`. -/
def asciiLower (s : String) : String :=
  String.mk (s.data.map Char.toLower)

/-- Characters that may not occur in an attribute name: ASCII whitespace,
NUL, `/`, `=` and `>`. -/
def forbiddenInName (ch : Char) : Bool :=
  ch.toNat = 9 || ch.toNat = 10 || ch.toNat = 12 || ch.toNat = 13 || ch.toNat = 32
    || ch.toNat = 0 || ch.toNat = 47 || ch.toNat = 61 || ch.toNat = 62

/-- The name check of `Element.setAttribute`: a valid attribute local name of
the DOM standard is not empty and has no forbidden character. -/
def validAttributeName (s : String) : Bool :=
  !s.data.isEmpty && s.data.all (fun ch => !forbiddenInName ch)

/-- The name under which `getAttribute` and `setAttribute` look an attribute
up: ASCII-lowercased on an HTML element in an HTML document (`html`), as given
otherwise. -/
def lookupName (html : Bool) (name : String) : String :=
  if html then asciiLower name else name

/-- The platform's `Element.getAttribute(name)`: the first attribute of the
looked-up name, `none` for the `null` returned when there is none. -/
def getAttribute (html : Bool) (attrs : Attrs) (name : String) : Option String :=
  attributeValue attrs (lookupName html name)

/-- The platform's `Element.setAttribute(name, value)`: throws
`InvalidCharacterError` on an invalid name; else changes the first attribute
of the looked-up name in place or appends a new one. -/
def setAttribute (html : Bool) (attrs : Attrs) (name value : String) :
    Except String Attrs :=
  if validAttributeName name then
    .ok (setAttributeValue attrs (lookupName html name) value)
  else .error "InvalidCharacterError"

/-- The value sanitization of a text input: line breaks (LF, CR) are
removed. -/
def stripNewlines (s : String) : String :=
  String.mk (s.data.filter (fun ch => !(ch.toNat = 10 || ch.toNat = 13)))

/-- String conversion of the result of `getAttribute` when it is passed as the
value of `setAttribute`. -/
def attrValueToString : Option String → String
  | none => "null"
  | some s => s

/-! ## Elements, listeners, controls -/

/-- Identity of a DOM element. -/
abbrev ElemId := Nat

/-- The name of the notification channel of an attribute:
`'communicate-'+attribute+'-update'`. -/
def channel (attributeName : String) : String :=
  "communicate-" ++ attributeName ++ "-update"

/-- One closure registered by `childComponent.addEventListener` in the
`slotchange` handler: the event type it listens to and the `attribute` it
captured (the captured `textarea` is always the panel's). -/
structure Listener where
  type : String
  attributeName : String
  deriving DecidableEq

/-- An embedded component as far as the panel uses it: `html` says whether it
is an HTML element in an HTML document. -/
structure Component where
  html : Bool
  attrs : Attrs
  listeners : List Listener
  deriving DecidableEq

/-- One synthesized setter: the `div.setter` (identified by `node`) with its
`span`, its `form`, the text input and the submit button, and the component
and attribute captured by the form's `submit` listener. -/
structure Control where
  node : Nat
  cls : String
  label : String
  inputType : String
  inputName : String
  inputId : String
  inputValue : String
  submitType : String
  submitValue : String
  target : ElemId
  attributeName : String
  deriving DecidableEq

/-- What the text input of a setter holds: its `value` attribute after the
value sanitization of a text input. -/
def Control.fieldValue (k : Control) : String :=
  stripNewlines k.inputValue

/-- The `detail` of a notification: `none` when `e.detail` is `null` or
`undefined` (an event created without detail), else the properties of the
detail object. -/
abbrev Detail := Option (List (String × JSValue))

/-- Property read `d[key]` on a detail object: `undefined` when absent. -/
def getProp : List (String × JSValue) → String → JSValue
  | [], _ => .undefined
  | (k, w) :: rest, key => if k = key then w else getProp rest key

/-- A DOM event as far as `preventDefault` is concerned. -/
structure Event where
  cancelable : Bool
  defaultPrevented : Bool
  deriving DecidableEq

/-- The platform's `Event.preventDefault()`: sets the canceled flag of a cancelable event. -/
def Event.preventDefault (e : Event) : Event :=
  { e with defaultPrevented := e.defaultPrevented || e.cancelable }

/-- One entry delivered to a `ResizeObserver` callback: its `contentRect`. -/
structure ResizeObserverEntry where
  width : JSNumber
  height : JSNumber
  deriving DecidableEq

/-! ## The panel -/

/-- State of one panel and of the elements it can see. -/
structure State where
  /-- the field `this.controlsAdded` -/
  controlsAdded : Bool
  /-- number of `slotchange` listeners registered on the slot -/
  slotListeners : Nat
  /-- the `textContent` of `#wc-custom-event-listeners textarea` -/
  log : String
  /-- children of `#wc-attribute-setters`, in document order -/
  controls : List Control
  /-- the `ResizeObserver`s observing `#web-component-container`, each given by
  the `childComponent` its callback captured, in creation order -/
  observers : List ElemId
  /-- supply of fresh node identities for `document.createElement` -/
  nextNode : Nat
  /-- the elements of the document -/
  comps : ElemId → Component

/-- The state after `constructor()`, in a document with elements `comps`. -/
def constructed (comps : ElemId → Component) : State :=
  { controlsAdded := false, slotListeners := 0, log := "", controls := [],
    observers := [], nextNode := 0, comps := comps }

/-- The method `addEventListeners()`: the body is empty. -/
def addEventListeners (st : State) : State := st

/-- Body of the `ResizeObserver` callback, the loop `for (let entry of
entries)`, on the attributes of the captured `childComponent`: the attributes
when the loop ends, and the exception that ended it, if any. -/
def resizeEntries (html : Bool) : Attrs → List ResizeObserverEntry → Attrs × Option String
  | a, [] => (a, none)
  | a, entry :: rest =>
    match setAttribute html a "width" (entry.width.toJSString ++ "px") with
    | .error err => (a, some err)
    | .ok a1 =>
      match setAttribute html a1 "height" (entry.height.toJSString ++ "px") with
      | .error err => (a1, some err)
      | .ok a2 => resizeEntries html a2 rest

/-- The attributes of the captured `childComponent` after the `ResizeObserver`
callback. -/
def resizeAttrs (html : Bool) (attrs : Attrs) (entries : List ResizeObserverEntry) : Attrs :=
  (resizeEntries html attrs entries).1

/-- The `ResizeObserver` callback of the observer that captured
`childComponent`. -/
def resizeCallback (st : State) (childComponent : ElemId)
    (entries : List ResizeObserverEntry) : State :=
  let comp := st.comps childComponent
  let comp' : Component :=
    { comp with attrs := resizeAttrs comp.html comp.attrs entries }
  { st with comps := Function.update st.comps childComponent comp' }

/-- The line the `communicate-<attribute>-update` listener appends. -/
def logLine (attributeName : String) (props : List (String × JSValue)) : String :=
  "Event \"communicate-" ++ attributeName ++ "-update\" / "
    ++ (getProp props "element").toJSString ++ " set "
    ++ (getProp props "property").toJSString ++ "=\""
    ++ (getProp props "value").toJSString ++ "\"\n"

/-- The `communicate-<attribute>-update` listener on the text of the textarea:
reading a property of a `null`/`undefined` detail throws a `TypeError`. -/
def relayHandler (attributeName : String) (detail : Detail) (log : String) :
    Except String String :=
  match detail with
  | none => .error "TypeError"
  | some props => .ok (log ++ logLine attributeName props)

/-- Run one registered listener; an exception thrown by a listener is reported
by the platform and leaves the state as it was. -/
def runListener (st : State) (l : Listener) (detail : Detail) : State :=
  match relayHandler l.attributeName detail st.log with
  | .ok log => { st with log := log }
  | .error _ => st

/-- A notification of type `type` arriving at component `c`: the platform
calls, in registration order, every listener registered for that type. -/
def notify (st : State) (c : ElemId) (type : String) (detail : Detail) : State :=
  ((st.comps c).listeners.filter (fun l => l.type = type)).foldl
    (fun s l => runListener s l detail) st

/-- The `submit` listener of a setter form, with `v` the current
`setterInput.value`: the state and the event after it, and the exception it
threw, if any. -/
def submitHandler (st : State) (k : Control) (v : String) (e : Event) :
    State × Event × Option String :=
  -- e.preventDefault()
  let e1 := e.preventDefault
  -- childComponent.setAttribute(attribute, setterInput.value)
  let comp := st.comps k.target
  match setAttribute comp.html comp.attrs k.attributeName v with
  | .error err => (st, e1, some err)
  | .ok attrs =>
    let comp' : Component := { comp with attrs := attrs }
    ({ st with comps := Function.update st.comps k.target comp' }, e1, none)

/-- The `div.setter` built for one attribute: `node` is the identity of the
new element, `html` and `attrs` describe `childComponent` when it is built. -/
def createSetter (node : Nat) (childComponent : ElemId) (html : Bool) (attrs : Attrs)
    (attributeName : String) : Control :=
  { node := node
    cls := "setter"
    label := attributeName
    inputType := "text"
    inputName := attributeName
    inputId := "input-" ++ attributeName
    inputValue := attrValueToString (getAttribute html attrs attributeName)
    submitType := "submit"
    submitValue := "Set"
    target := childComponent
    attributeName := attributeName }

/-- Body of `getAttributeNames().forEach(attribute => ...)` for one
attribute. -/
def addAttribute (childComponent : ElemId) (st : State) (attributeName : String) :
    State :=
  let comp := st.comps childComponent
  -- childComponent.addEventListener('communicate-'+attribute+'-update', ...)
  let listener : Listener :=
    { type := channel attributeName, attributeName := attributeName }
  let comp' : Component := { comp with listeners := comp.listeners ++ [listener] }
  -- document.createElement('div') ... childComponentAttributeSetters.appendChild(setter)
  let setter :=
    createSetter st.nextNode childComponent comp.html comp.attrs attributeName
  { st with
    comps := Function.update st.comps childComponent comp'
    nextNode := st.nextNode + 1
    controls := st.controls ++ [setter] }

/-- Body of `assignedElements.forEach(childComponent => ...)` for one projected
element: discovery. -/
def discover (st : State) (childComponent : ElemId) : State :=
  -- new ResizeObserver(...); resizeObserver.observe(container)
  let st1 := { st with observers := st.observers ++ [childComponent] }
  -- childComponentAttributeSetters.innerHTML = ''
  let st2 := { st1 with controls := [] }
  (getAttributeNames (st.comps childComponent).attrs).foldl
    (addAttribute childComponent) st2

/-- The `slotchange` listener registered by `connectedCallback`, with
`assignedElements` the result of `slotElement.assignedElements()`. -/
def slotchangeHandler (st : State) (assignedElements : List ElemId) : State :=
  assignedElements.foldl discover st

/-- A `slotchange` notification on the slot: every registered listener runs. -/
def slotchange (st : State) (assignedElements : List ElemId) : State :=
  Nat.iterate (fun s => slotchangeHandler s assignedElements) st.slotListeners st

/-- The method `connectedCallback()`: registers the `slotchange` listener unless
`controlsAdded` is already set, then calls `addEventListeners()`. -/
def connectedCallback (st : State) : State :=
  let st1 :=
    if !st.controlsAdded then
      { st with controlsAdded := true, slotListeners := st.slotListeners + 1 }
    else st
  addEventListeners st1

/-- The method `disconnectedCallback()`: the body is empty. -/
def disconnectedCallback (st : State) : State := st

/-- The document of the scenario: element `0` is a component with
`volume="5"` and `muted="false"`, element `1` a component with
`src="a.mp3"`, every other element has no attributes. -/
def scenarioDoc : ElemId → Component := fun i =>
  if i = 0 then
    { html := true, attrs := [("volume", "5"), ("muted", "false")], listeners := [] }
  else if i = 1 then { html := true, attrs := [("src", "a.mp3")], listeners := [] }
  else { html := true, attrs := [], listeners := [] }

/-- A document whose element `0` is an HTML element with the attributes
`viewBox="0 0 1 1"` (a mixed-case name, as `setAttributeNS` creates it),
`title` with a line break in its value, and `=a="1"` (a name the HTML parser
accepts); every other element has no attributes. -/
def oddNamesDoc : ElemId → Component := fun i =>
  if i = 0 then
    { html := true,
      attrs := [("viewBox", "0 0 1 1"), ("title", "a\nb"), ("=a", "1")],
      listeners := [] }
  else { html := true, attrs := [], listeners := [] }

/-- The panel of `oddNamesDoc`: connected, then one `slotchange` with element
`0` projected. -/
def oddNamesPanel : State :=
  slotchange (connectedCallback (constructed oddNamesDoc)) [0]

/-- The scenario panel: connected, then one `slotchange` with element `0`
projected. -/
def scenarioPanel : State :=
  slotchange (connectedCallback (constructed scenarioDoc)) [0]

/-- The payload of the scenario:
`{element:"x", property:"volume", value:"10"}`. -/
def scenarioPayload : List (String × JSValue) :=
  [("element", .string "x"), ("property", .string "volume"), ("value", .string "10")]

/-- Everything that can happen to a panel: the two lifecycle reactions, a
`slotchange` notification, a notification arriving at a component, a
`ResizeObserver` callback, and the submission of a setter form. -/
inductive Action where
  | connected
  | disconnected
  | slotchange (assignedElements : List ElemId)
  | notification (c : ElemId) (type : String) (detail : Detail)
  | resize (childComponent : ElemId) (entries : List ResizeObserverEntry)
  | submit (k : Control) (v : String) (e : Event)

/-- Run one action. -/
def Action.run (st : State) : Action → State
  | .connected => connectedCallback st
  | .disconnected => disconnectedCallback st
  | .slotchange assignedElements => EdiromDemo.slotchange st assignedElements
  | .notification c type detail => notify st c type detail
  | .resize childComponent entries => resizeCallback st childComponent entries
  | .submit k v e => (submitHandler st k v e).1

/-- Run a sequence of actions, oldest first. -/
def runActions (st : State) (actions : List Action) : State :=
  actions.foldl Action.run st

/-- Every control of the panel was created from the node supply. -/
def NodesAllocated (st : State) : Prop :=
  ∀ k ∈ st.controls, k.node < st.nextNode

/-! ## Attribute lemmas -/

theorem attributeValue_setAttributeValue_same (attrs : Attrs) (a v : String) :
    attributeValue (setAttributeValue attrs a v) a = some v := by
  induction attrs with
  | nil => simp [setAttributeValue, attributeValue]
  | cons p rest ih =>
    obtain ⟨k, w⟩ := p
    by_cases hk : k = a
    · simp [setAttributeValue, attributeValue, hk]
    · simp [setAttributeValue, attributeValue, hk, ih]

theorem attributeValue_setAttributeValue_ne (attrs : Attrs) (a b v : String) (hb : b ≠ a) :
    attributeValue (setAttributeValue attrs a v) b = attributeValue attrs b := by
  induction attrs with
  | nil => simp [setAttributeValue, attributeValue, Ne.symm hb]
  | cons p rest ih =>
    obtain ⟨k, w⟩ := p
    by_cases hk : k = a
    · subst hk
      have hkb : ¬ k = b := fun e => hb e.symm
      simp [setAttributeValue, attributeValue, hkb]
    · by_cases hkb : k = b
      · subst hkb
        simp [setAttributeValue, attributeValue, hk]
      · simp [setAttributeValue, attributeValue, hk, hkb, ih]

theorem setAttributeValue_filter_ne (attrs : Attrs) (a v : String) :
    (setAttributeValue attrs a v).filter (fun p => p.1 ≠ a)
      = attrs.filter (fun p => p.1 ≠ a) := by
  induction attrs with
  | nil => simp [setAttributeValue]
  | cons p rest ih =>
    obtain ⟨k, w⟩ := p
    by_cases hk : k = a
    · simp [setAttributeValue, hk]
    · simp only [setAttributeValue, hk, if_false]
      rw [List.filter_cons, List.filter_cons, ih]

theorem getAttributeNames_setAttributeValue (attrs : Attrs) (a v : String) :
    getAttributeNames (setAttributeValue attrs a v)
      = if a ∈ getAttributeNames attrs then getAttributeNames attrs
        else getAttributeNames attrs ++ [a] := by
  induction attrs with
  | nil => simp [setAttributeValue, getAttributeNames]
  | cons p rest ih =>
    obtain ⟨k, w⟩ := p
    by_cases hk : k = a
    · simp [setAttributeValue, getAttributeNames, hk]
    · have hne : ¬ a = k := fun h => hk h.symm
      simp only [getAttributeNames] at ih
      simp only [setAttributeValue, hk, if_false, getAttributeNames, List.map_cons, List.mem_cons,
        hne, false_or, ih]
      split <;> simp

theorem attributeValue_of_nodup (attrs : Attrs) (h : (getAttributeNames attrs).Nodup) :
    attrs.map (fun p => (p.1, attrValueToString (attributeValue attrs p.1))) = attrs := by
  induction attrs with
  | nil => rfl
  | cons p rest ih =>
    obtain ⟨k, w⟩ := p
    simp only [getAttributeNames, List.map_cons, List.nodup_cons, List.mem_map] at h
    have ih2 := ih (by simpa [getAttributeNames] using h.2)
    have hmap : rest.map (fun p => (p.1, attrValueToString (attributeValue ((k, w) :: rest) p.1)))
        = rest.map (fun p => (p.1, attrValueToString (attributeValue rest p.1))) := by
      apply List.map_congr_left
      intro q hq
      have hkq : ¬ k = q.1 := fun e => h.1 ⟨q, hq, e.symm⟩
      simp only [attributeValue, hkq, if_false]
    rw [List.map_cons, hmap, ih2]
    simp [attributeValue, attrValueToString]

/-! ## Decimal digits -/

theorem digitChar_isDigit (m : Nat) (h : m < 10) : (Nat.digitChar m).isDigit = true := by
  interval_cases m <;> decide

theorem toDigitsCore_all_digits (fuel : Nat) :
    ∀ (n : Nat) (ds : List Char), ds.all Char.isDigit = true →
      (Nat.toDigitsCore 10 fuel n ds).all Char.isDigit = true := by
  induction fuel with
  | zero => intro n ds h; simpa [Nat.toDigitsCore] using h
  | succ f ih =>
    intro n ds h
    have hd : (Nat.digitChar (n % 10)).isDigit = true :=
      digitChar_isDigit _ (Nat.mod_lt _ (by decide))
    simp only [Nat.toDigitsCore]
    split
    · simp [List.all_cons, hd, h]
    · apply ih
      simp [List.all_cons, hd, h]

theorem toDigitsCore_ne_nil (fuel : Nat) :
    ∀ (n : Nat) (ds : List Char), ds ≠ [] → Nat.toDigitsCore 10 fuel n ds ≠ [] := by
  induction fuel with
  | zero => intro n ds h; simpa [Nat.toDigitsCore] using h
  | succ f ih =>
    intro n ds _
    simp only [Nat.toDigitsCore]
    split
    · simp
    · exact ih _ _ (by simp)

theorem toDigits_ne_nil (n : Nat) : Nat.toDigits 10 n ≠ [] := by
  unfold Nat.toDigits
  simp only [Nat.toDigitsCore]
  split
  · simp
  · exact toDigitsCore_ne_nil _ _ _ (by simp)

theorem isIntegerPx_toString (n : Nat) : isIntegerPx (toString n ++ "px") = true := by
  have hall : (Nat.toDigits 10 n).all Char.isDigit = true :=
    toDigitsCore_all_digits _ _ _ rfl
  have hne := toDigits_ne_nil n
  have hl : (toString n ++ "px").toList = Nat.toDigits 10 n ++ ['p', 'x'] := by
    show (Nat.repr n ++ "px").toList = _
    simp [Nat.repr, String.toList, List.asString]
  unfold isIntegerPx
  rw [hl]
  simp only [List.reverse_append, List.reverse_cons, List.reverse_nil, List.nil_append,
    List.singleton_append, List.cons_append]
  have hr : (Nat.toDigits 10 n).reverse ≠ [] := by simpa using hne
  have hrall : (Nat.toDigits 10 n).reverse.all Char.isDigit = true := by
    simpa [List.all_eq_true] using hall
  cases hrev : (Nat.toDigits 10 n).reverse with
  | nil => exact absurd hrev hr
  | cons d ds => rw [hrev] at hrall; simpa using hrall

/-! ## Discovery lemmas -/

theorem foldl_addAttribute (c : ElemId) (names : List String) :
    ∀ st : State,
      (names.foldl (addAttribute c) st).log = st.log
      ∧ (names.foldl (addAttribute c) st).observers = st.observers
      ∧ (names.foldl (addAttribute c) st).controlsAdded = st.controlsAdded
      ∧ (names.foldl (addAttribute c) st).slotListeners = st.slotListeners
      ∧ (names.foldl (addAttribute c) st).nextNode = st.nextNode + names.length
      ∧ ((names.foldl (addAttribute c) st).comps c).attrs = (st.comps c).attrs
      ∧ ((names.foldl (addAttribute c) st).comps c).listeners
          = (st.comps c).listeners
            ++ names.map (fun a => ({ type := channel a, attributeName := a } : Listener))
      ∧ (∀ d, d ≠ c → (names.foldl (addAttribute c) st).comps d = st.comps d)
      ∧ (names.foldl (addAttribute c) st).controls
          = st.controls
            ++ (List.enumFrom st.nextNode names).map
                (fun q => createSetter q.1 c (st.comps c).html (st.comps c).attrs q.2) := by
  induction names with
  | nil => intro st; simp
  | cons a rest ih =>
    intro st
    obtain ⟨h1, h2, h3, h4, h5, h6, h7, h8, h9⟩ := ih (addAttribute c st a)
    simp only [List.foldl_cons]
    refine ⟨?_, ?_, ?_, ?_, ?_, ?_, ?_, ?_, ?_⟩
    · rw [h1]; rfl
    · rw [h2]; rfl
    · rw [h3]; rfl
    · rw [h4]; rfl
    · rw [h5]; simp [addAttribute]; omega
    · rw [h6]; simp [addAttribute]
    · rw [h7]; simp [addAttribute]
    · intro d hd
      rw [h8 d hd]
      simp [addAttribute, Function.update_noteq hd]
    · rw [h9]
      simp [addAttribute, List.enumFrom_cons]

theorem discover_log (st : State) (c : ElemId) : (discover st c).log = st.log :=
  (foldl_addAttribute c _ _).1

theorem discover_observers (st : State) (c : ElemId) :
    (discover st c).observers = st.observers ++ [c] :=
  (foldl_addAttribute c _ _).2.1

theorem discover_nextNode (st : State) (c : ElemId) :
    (discover st c).nextNode = st.nextNode + (st.comps c).attrs.length := by
  have h := (foldl_addAttribute c (getAttributeNames (st.comps c).attrs)
    { st with observers := st.observers ++ [c], controls := [] }).2.2.2.2.1
  simpa [discover, getAttributeNames] using h

theorem discover_attrs (st : State) (c d : ElemId) :
    ((discover st c).comps d).attrs = (st.comps d).attrs := by
  by_cases hd : d = c
  · subst hd
    exact (foldl_addAttribute d _ _).2.2.2.2.2.1
  · have h := (foldl_addAttribute c (getAttributeNames (st.comps c).attrs)
      { st with observers := st.observers ++ [c], controls := [] }).2.2.2.2.2.2.2.1 d hd
    simp only [discover]
    rw [h]

theorem addAttribute_html (c : ElemId) (st : State) (a : String) (d : ElemId) :
    ((addAttribute c st a).comps d).html = (st.comps d).html := by
  by_cases hd : d = c
  · subst hd; simp [addAttribute]
  · simp [addAttribute, Function.update_noteq hd]

theorem foldl_addAttribute_html (c : ElemId) (names : List String) (d : ElemId) :
    ∀ st : State, ((names.foldl (addAttribute c) st).comps d).html = (st.comps d).html := by
  induction names with
  | nil => intro st; rfl
  | cons a rest ih =>
    intro st
    exact (ih (addAttribute c st a)).trans (addAttribute_html c st a d)

theorem discover_html (st : State) (c d : ElemId) :
    ((discover st c).comps d).html = (st.comps d).html :=
  foldl_addAttribute_html c _ d _

theorem discover_listeners (st : State) (c : ElemId) :
    ((discover st c).comps c).listeners
      = (st.comps c).listeners
        ++ (getAttributeNames (st.comps c).attrs).map
            (fun a => ({ type := channel a, attributeName := a } : Listener)) :=
  (foldl_addAttribute c _ _).2.2.2.2.2.2.1

theorem discover_controls (st : State) (c : ElemId) :
    (discover st c).controls
      = (List.enumFrom st.nextNode (getAttributeNames (st.comps c).attrs)).map
          (fun q => createSetter q.1 c (st.comps c).html (st.comps c).attrs q.2) := by
  have h := (foldl_addAttribute c (getAttributeNames (st.comps c).attrs)
    { st with observers := st.observers ++ [c], controls := [] }).2.2.2.2.2.2.2.2
  simpa [discover] using h

theorem mem_discover_controls (st : State) (c : ElemId) (k : Control)
    (hk : k ∈ (discover st c).controls) :
    ∃ a, a ∈ getAttributeNames (st.comps c).attrs ∧ st.nextNode ≤ k.node
      ∧ k.node < (discover st c).nextNode
      ∧ k = createSetter k.node c (st.comps c).html (st.comps c).attrs a := by
  rw [discover_controls] at hk
  obtain ⟨q, hq, rfl⟩ := List.mem_map.1 hk
  obtain ⟨i, a⟩ := q
  have hm := List.mem_enumFrom hq
  refine ⟨a, hm.2.2 ▸ List.getElem_mem _, hm.1, ?_, rfl⟩
  rw [discover_nextNode]
  simpa [getAttributeNames, createSetter] using hm.2.1

theorem discover_nodesAllocated (st : State) (c : ElemId) :
    NodesAllocated (discover st c) := by
  intro k hk
  obtain ⟨_, _, _, h, _⟩ := mem_discover_controls st c k hk
  exact h

theorem discover_controls_view (st : State) (c : ElemId) :
    (discover st c).controls.map (fun k => (k.label, k.inputValue))
      = (st.comps c).attrs.map
          (fun p => (p.1, attrValueToString
            (getAttribute (st.comps c).html (st.comps c).attrs p.1))) := by
  rw [discover_controls, List.map_map]
  have h : ((fun k : Control => (k.label, k.inputValue))
      ∘ fun q : Nat × String =>
          createSetter q.1 c (st.comps c).html (st.comps c).attrs q.2)
      = (fun a => (a, attrValueToString
          (getAttribute (st.comps c).html (st.comps c).attrs a))) ∘ Prod.snd := by
    funext q
    simp [createSetter]
  rw [h, ← List.map_map, List.enumFrom_map_snd, getAttributeNames, List.map_map]
  rfl

/-! ## Resize lemmas -/

theorem setAttributeValue_filter_of_reject (q : String → Bool) (attrs : Attrs) (a v : String)
    (hq : q a = false) :
    (setAttributeValue attrs a v).filter (fun p => q p.1) = attrs.filter (fun p => q p.1) := by
  induction attrs with
  | nil => simp [setAttributeValue, hq]
  | cons p rest ih =>
    obtain ⟨k, w⟩ := p
    by_cases hk : k = a
    · subst hk
      simp [setAttributeValue, List.filter_cons, hq]
    · simp only [setAttributeValue, hk, if_false]
      rw [List.filter_cons, List.filter_cons, ih]

theorem lookupName_of_lower (html : Bool) (name : String) (h : asciiLower name = name) :
    lookupName html name = name := by
  cases html <;> simp [lookupName, h]

theorem setAttribute_width (html : Bool) (attrs : Attrs) (v : String) :
    setAttribute html attrs "width" v = .ok (setAttributeValue attrs "width" v) := by
  have hv : validAttributeName "width" = true := by decide
  have hl : lookupName html "width" = "width" := lookupName_of_lower _ _ (by decide)
  simp [setAttribute, hv, hl]

theorem setAttribute_height (html : Bool) (attrs : Attrs) (v : String) :
    setAttribute html attrs "height" v = .ok (setAttributeValue attrs "height" v) := by
  have hv : validAttributeName "height" = true := by decide
  have hl : lookupName html "height" = "height" := lookupName_of_lower _ _ (by decide)
  simp [setAttribute, hv, hl]

theorem resizeEntries_cons (html : Bool) (attrs : Attrs) (e : ResizeObserverEntry)
    (rest : List ResizeObserverEntry) :
    resizeEntries html attrs (e :: rest)
      = resizeEntries html
          (setAttributeValue (setAttributeValue attrs "width" (e.width.toJSString ++ "px"))
            "height" (e.height.toJSString ++ "px")) rest := by
  simp only [resizeEntries, setAttribute_width, setAttribute_height]

theorem resizeEntries_no_exception (html : Bool) (entries : List ResizeObserverEntry) :
    ∀ attrs : Attrs, (resizeEntries html attrs entries).2 = none := by
  induction entries with
  | nil => intro attrs; rfl
  | cons e rest ih => intro attrs; rw [resizeEntries_cons]; exact ih _

theorem resizeAttrs_cons (html : Bool) (attrs : Attrs) (e : ResizeObserverEntry)
    (rest : List ResizeObserverEntry) :
    resizeAttrs html attrs (e :: rest)
      = resizeAttrs html
          (setAttributeValue (setAttributeValue attrs "width" (e.width.toJSString ++ "px"))
            "height" (e.height.toJSString ++ "px")) rest := by
  simp only [resizeAttrs, resizeEntries_cons]

theorem resizeAttrs_snoc (html : Bool) (entries : List ResizeObserverEntry)
    (e : ResizeObserverEntry) :
    ∀ attrs : Attrs,
      resizeAttrs html attrs (entries ++ [e])
        = setAttributeValue (setAttributeValue (resizeAttrs html attrs entries) "width"
            (e.width.toJSString ++ "px")) "height" (e.height.toJSString ++ "px") := by
  induction entries with
  | nil => intro attrs; rw [List.nil_append, resizeAttrs_cons]; rfl
  | cons e0 rest ih =>
    intro attrs
    rw [List.cons_append, resizeAttrs_cons, resizeAttrs_cons, ih]

theorem resizeAttrs_other (html : Bool) (entries : List ResizeObserverEntry) :
    ∀ (attrs : Attrs) (b : String), b ≠ "width" → b ≠ "height" →
      attributeValue (resizeAttrs html attrs entries) b = attributeValue attrs b := by
  induction entries with
  | nil => intro attrs b _ _; rfl
  | cons e rest ih =>
    intro attrs b hw hh
    rw [resizeAttrs_cons, ih _ b hw hh, attributeValue_setAttributeValue_ne _ _ _ _ hh,
      attributeValue_setAttributeValue_ne _ _ _ _ hw]

theorem resizeAttrs_filter (html : Bool) (entries : List ResizeObserverEntry) :
    ∀ attrs : Attrs,
      (resizeAttrs html attrs entries).filter (fun p => p.1 ≠ "width" && p.1 ≠ "height")
        = attrs.filter (fun p => p.1 ≠ "width" && p.1 ≠ "height") := by
  induction entries with
  | nil => intro attrs; rfl
  | cons e rest ih =>
    intro attrs
    rw [resizeAttrs_cons, ih]
    have h1 := setAttributeValue_filter_of_reject
      (fun n => decide (n ≠ "width") && decide (n ≠ "height"))
      (setAttributeValue attrs "width" (e.width.toJSString ++ "px")) "height"
      (e.height.toJSString ++ "px") (by decide)
    have h2 := setAttributeValue_filter_of_reject
      (fun n => decide (n ≠ "width") && decide (n ≠ "height"))
      attrs "width" (e.width.toJSString ++ "px") (by decide)
    exact h1.trans h2

theorem ofNat_toJSString (n : Nat) : (JSNumber.ofNat n).toJSString = toString n := by
  simp [JSNumber.toJSString, JSNumber.ofNat]

/-! ## Frame lemmas for the actions -/

theorem discover_flags (st : State) (c : ElemId) :
    (discover st c).controlsAdded = st.controlsAdded
    ∧ (discover st c).slotListeners = st.slotListeners :=
  ⟨(foldl_addAttribute c _ _).2.2.1, (foldl_addAttribute c _ _).2.2.2.1⟩

theorem slotchangeHandler_flags (assigned : List ElemId) :
    ∀ st : State,
      (slotchangeHandler st assigned).controlsAdded = st.controlsAdded
      ∧ (slotchangeHandler st assigned).slotListeners = st.slotListeners := by
  induction assigned with
  | nil => intro st; exact ⟨rfl, rfl⟩
  | cons c rest ih =>
    intro st
    have h := ih (discover st c)
    have hd := discover_flags st c
    exact ⟨h.1.trans hd.1, h.2.trans hd.2⟩

theorem slotchangeHandler_nodesAllocated (assigned : List ElemId) :
    ∀ st : State, NodesAllocated st → NodesAllocated (slotchangeHandler st assigned) := by
  induction assigned with
  | nil => intro st h; exact h
  | cons c rest ih =>
    intro st _
    exact ih (discover st c) (discover_nodesAllocated st c)

theorem iterate_keeps (P : State → Prop) (f : State → State) (hf : ∀ s, P s → P (f s))
    (n : Nat) (s : State) (hs : P s) : P (Nat.iterate f n s) := by
  induction n with
  | zero => exact hs
  | succ m ih =>
    rw [Function.iterate_succ_apply']
    exact hf _ ih

theorem slotchange_flags (st : State) (assigned : List ElemId) :
    (slotchange st assigned).controlsAdded = st.controlsAdded
    ∧ (slotchange st assigned).slotListeners = st.slotListeners :=
  iterate_keeps
    (fun s => s.controlsAdded = st.controlsAdded ∧ s.slotListeners = st.slotListeners)
    (fun s => slotchangeHandler s assigned)
    (fun s hs => ⟨(slotchangeHandler_flags assigned s).1.trans hs.1,
      (slotchangeHandler_flags assigned s).2.trans hs.2⟩)
    st.slotListeners st ⟨rfl, rfl⟩

theorem slotchange_nodesAllocated (st : State) (assigned : List ElemId)
    (h : NodesAllocated st) : NodesAllocated (slotchange st assigned) :=
  iterate_keeps NodesAllocated (fun s => slotchangeHandler s assigned)
    (fun s hs => slotchangeHandler_nodesAllocated assigned s hs) st.slotListeners st h

theorem runListener_frame (st : State) (l : Listener) (detail : Detail) :
    (runListener st l detail).controlsAdded = st.controlsAdded
    ∧ (runListener st l detail).slotListeners = st.slotListeners
    ∧ (runListener st l detail).controls = st.controls
    ∧ (runListener st l detail).observers = st.observers
    ∧ (runListener st l detail).nextNode = st.nextNode
    ∧ (runListener st l detail).comps = st.comps := by
  cases detail with
  | none => exact ⟨rfl, rfl, rfl, rfl, rfl, rfl⟩
  | some props => exact ⟨rfl, rfl, rfl, rfl, rfl, rfl⟩

theorem foldl_runListener_frame (detail : Detail) (ls : List Listener) :
    ∀ st : State,
      (ls.foldl (fun s l => runListener s l detail) st).controlsAdded = st.controlsAdded
      ∧ (ls.foldl (fun s l => runListener s l detail) st).slotListeners = st.slotListeners
      ∧ (ls.foldl (fun s l => runListener s l detail) st).controls = st.controls
      ∧ (ls.foldl (fun s l => runListener s l detail) st).observers = st.observers
      ∧ (ls.foldl (fun s l => runListener s l detail) st).nextNode = st.nextNode
      ∧ (ls.foldl (fun s l => runListener s l detail) st).comps = st.comps := by
  induction ls with
  | nil => intro st; exact ⟨rfl, rfl, rfl, rfl, rfl, rfl⟩
  | cons l rest ih =>
    intro st
    obtain ⟨h1, h2, h3, h4, h5, h6⟩ := ih (runListener st l detail)
    obtain ⟨g1, g2, g3, g4, g5, g6⟩ := runListener_frame st l detail
    exact ⟨h1.trans g1, h2.trans g2, h3.trans g3, h4.trans g4, h5.trans g5, h6.trans g6⟩

theorem notify_frame (st : State) (c : ElemId) (type : String) (detail : Detail) :
    (notify st c type detail).controlsAdded = st.controlsAdded
    ∧ (notify st c type detail).slotListeners = st.slotListeners
    ∧ (notify st c type detail).controls = st.controls
    ∧ (notify st c type detail).observers = st.observers
    ∧ (notify st c type detail).nextNode = st.nextNode
    ∧ (notify st c type detail).comps = st.comps :=
  foldl_runListener_frame detail _ st

theorem foldl_runListener_none (ls : List Listener) :
    ∀ st : State, ls.foldl (fun s l => runListener s l none) st = st := by
  induction ls with
  | nil => intro st; rfl
  | cons l rest ih => intro st; exact ih st

theorem notify_none (st : State) (c : ElemId) (type : String) :
    notify st c type none = st :=
  foldl_runListener_none _ st

theorem submitHandler_ok (st : State) (k : Control) (v : String) (e : Event)
    (h : validAttributeName k.attributeName = true) :
    submitHandler st k v e
      = ({ st with comps := (Function.update st.comps k.target
            ⟨(st.comps k.target).html,
             setAttributeValue (st.comps k.target).attrs
               (lookupName (st.comps k.target).html k.attributeName) v,
             (st.comps k.target).listeners⟩) },
         e.preventDefault, none) := by
  simp [submitHandler, setAttribute, h]

theorem submitHandler_error (st : State) (k : Control) (v : String) (e : Event)
    (h : validAttributeName k.attributeName = false) :
    submitHandler st k v e = (st, e.preventDefault, some "InvalidCharacterError") := by
  simp [submitHandler, setAttribute, h]

theorem submitHandler_frame (st : State) (k : Control) (v : String) (e : Event) :
    (submitHandler st k v e).1.controlsAdded = st.controlsAdded
    ∧ (submitHandler st k v e).1.slotListeners = st.slotListeners
    ∧ (submitHandler st k v e).1.controls = st.controls
    ∧ (submitHandler st k v e).1.observers = st.observers
    ∧ (submitHandler st k v e).1.nextNode = st.nextNode
    ∧ (submitHandler st k v e).1.log = st.log
    ∧ (submitHandler st k v e).2.1 = e.preventDefault := by
  cases hv : validAttributeName k.attributeName
  · rw [submitHandler_error st k v e hv]
    exact ⟨rfl, rfl, rfl, rfl, rfl, rfl, rfl⟩
  · rw [submitHandler_ok st k v e hv]
    exact ⟨rfl, rfl, rfl, rfl, rfl, rfl, rfl⟩

theorem connectedCallback_of_controlsAdded (st : State) (h : st.controlsAdded = true) :
    connectedCallback st = st := by
  simp [connectedCallback, addEventListeners, h]

theorem run_flags (st : State) (a : Action)
    (h : st.slotListeners = if st.controlsAdded then 1 else 0) :
    ((a.run st).slotListeners = if (a.run st).controlsAdded then 1 else 0)
    ∧ (st.controlsAdded = true → (a.run st).controlsAdded = true)
    ∧ (a = Action.connected → (a.run st).controlsAdded = true) := by
  cases a with
  | connected =>
    cases hc : st.controlsAdded <;>
      simp [Action.run, connectedCallback, addEventListeners, hc] at h ⊢ <;> exact h
  | disconnected => simpa [Action.run, disconnectedCallback] using h
  | slotchange assigned =>
    obtain ⟨h1, h2⟩ := slotchange_flags st assigned
    simp only [Action.run, h1, h2]
    exact ⟨h, id, fun e => by cases e⟩
  | notification c type detail =>
    obtain ⟨h1, h2, _⟩ := notify_frame st c type detail
    simp only [Action.run, h1, h2]
    exact ⟨h, id, fun e => by cases e⟩
  | resize c entries => exact ⟨h, id, fun e => by cases e⟩
  | submit k v e =>
    obtain ⟨h1, h2, _⟩ := submitHandler_frame st k v e
    simp only [Action.run, h1, h2]
    exact ⟨h, id, fun e => by cases e⟩

theorem runActions_flags (actions : List Action) :
    ∀ st : State, (st.slotListeners = if st.controlsAdded then 1 else 0) →
      ((runActions st actions).slotListeners
          = if (runActions st actions).controlsAdded then 1 else 0)
      ∧ (st.controlsAdded = true → (runActions st actions).controlsAdded = true)
      ∧ (Action.connected ∈ actions → (runActions st actions).controlsAdded = true) := by
  induction actions with
  | nil => intro st h; exact ⟨h, id, fun e => by cases e⟩
  | cons a rest ih =>
    intro st h
    obtain ⟨g1, g2, g3⟩ := run_flags st a h
    obtain ⟨i1, i2, i3⟩ := ih (a.run st) g1
    refine ⟨i1, fun hc => i2 (g2 hc), fun hm => ?_⟩
    rcases List.mem_cons.1 hm with e | e
    · exact i2 (g3 e.symm)
    · exact i3 e

theorem run_nodesAllocated (st : State) (a : Action) (h : NodesAllocated st) :
    NodesAllocated (a.run st) := by
  cases a with
  | connected =>
    intro k hk
    have hc : (connectedCallback st).controls = st.controls
        ∧ (connectedCallback st).nextNode = st.nextNode := by
      cases hb : st.controlsAdded <;> simp [connectedCallback, addEventListeners, hb]
    simp only [Action.run] at hk ⊢
    rw [hc.2]
    exact h k (hc.1 ▸ hk)
  | disconnected => exact h
  | slotchange assigned => exact slotchange_nodesAllocated st assigned h
  | notification c type detail =>
    obtain ⟨_, _, h3, _, h5, _⟩ := notify_frame st c type detail
    intro k hk
    simp only [Action.run] at hk ⊢
    rw [h5]
    exact h k (h3 ▸ hk)
  | resize c entries => exact h
  | submit k v e =>
    obtain ⟨_, _, h3, _, h5, _⟩ := submitHandler_frame st k v e
    intro k0 hk0
    simp only [Action.run] at hk0 ⊢
    rw [h5]
    exact h k0 (h3 ▸ hk0)

theorem runActions_nodesAllocated (actions : List Action) :
    ∀ st : State, NodesAllocated st → NodesAllocated (runActions st actions) := by
  induction actions with
  | nil => intro st h; exact h
  | cons a rest ih => intro st h; exact ih _ (run_nodesAllocated st a h)

theorem constructed_nodesAllocated (doc : ElemId → Component) :
    NodesAllocated (constructed doc) := by
  intro k hk
  cases hk

theorem stripNewlines_eq_self (v : String)
    (h : ∀ ch ∈ v.data, ch.toNat ≠ 10 ∧ ch.toNat ≠ 13) : stripNewlines v = v := by
  have hf : v.data.filter (fun ch => !(decide (ch.toNat = 10) || decide (ch.toNat = 13)))
      = v.data := by
    apply List.filter_eq_self.2
    intro ch hch
    have := h ch hch
    simp [this.1, this.2]
  unfold stripNewlines
  rw [hf]

/-! ## Claims -/

/-- C1, the claim as stated fails: element `0` of `oddNamesDoc` is an HTML
element with the attributes `viewBox="0 0 1 1"`, `title` with a line break in
its value, and `=a="1"`.  Discovery builds three controls in that order, but
the `viewBox` input is pre-filled with `null`, because `getAttribute` looks up
the lowercased name, and the `title` input holds the value without its line
break. -/
theorem C1_odd_names_counterexample :
    (getAttributeNames ((connectedCallback (constructed oddNamesDoc)).comps 0).attrs).Nodup
    ∧ ((connectedCallback (constructed oddNamesDoc)).comps 0).attrs
        = [("viewBox", "0 0 1 1"), ("title", "a\nb"), ("=a", "1")]
    ∧ (discover (connectedCallback (constructed oddNamesDoc)) 0).controls.map
        (fun k => (k.label, k.inputValue, k.fieldValue))
        = [("viewBox", "null", "null"), ("title", "a\nb", "ab"), ("=a", "1", "1")] := by
  decide

/-- C1 as amended: running discovery for a component whose attribute names
are pairwise different and, when it is an HTML element, unchanged by ASCII
lowercasing, leaves the control panel with exactly one control per attribute,
in the order of the attribute list, control `i` labelled with the `i`-th name;
the `value` attribute of its text input is the `i`-th current value and the
input holds that value with line breaks removed, which is the value itself
when it has none; every control is a text input bound to that component and to
the attribute of its label; with no attributes the panel is empty; and for the
instance with `volume="5"`, `muted="false"` the panel holds the two controls
`(volume, 5)` and `(muted, false)`. -/
theorem C1_discovery_builds_controls (st : State) (c : ElemId)
    (hnodup : (getAttributeNames (st.comps c).attrs).Nodup)
    (hlower : (st.comps c).html = true →
      ∀ a ∈ getAttributeNames (st.comps c).attrs, asciiLower a = a) :
    (discover st c).controls.map (fun k => k.label) = getAttributeNames (st.comps c).attrs
    ∧ (discover st c).controls.map (fun k => (k.label, k.inputValue)) = (st.comps c).attrs
    ∧ (discover st c).controls.map (fun k => (k.label, k.fieldValue))
        = (st.comps c).attrs.map (fun p => (p.1, stripNewlines p.2))
    ∧ (∀ v : String, (∀ ch ∈ v.data, ch.toNat ≠ 10 ∧ ch.toNat ≠ 13) → stripNewlines v = v)
    ∧ (discover st c).controls.length = (st.comps c).attrs.length
    ∧ (∀ k ∈ (discover st c).controls,
        k.inputType = "text" ∧ k.target = c ∧ k.attributeName = k.label)
    ∧ ((st.comps c).attrs = [] → (discover st c).controls = [])
    ∧ scenarioPanel.controls.map (fun k => (k.label, k.inputValue, k.fieldValue))
        = [("volume", "5", "5"), ("muted", "false", "false")] := by
  have hview : (discover st c).controls.map (fun k => (k.label, k.inputValue))
      = (st.comps c).attrs := by
    rw [discover_controls_view]
    have hget : (st.comps c).attrs.map (fun p => (p.1, attrValueToString
          (getAttribute (st.comps c).html (st.comps c).attrs p.1)))
        = (st.comps c).attrs.map (fun p => (p.1, attrValueToString
          (attributeValue (st.comps c).attrs p.1))) := by
      apply List.map_congr_left
      intro p hp
      have hl : lookupName (st.comps c).html p.1 = p.1 := by
        cases hh : (st.comps c).html
        · rfl
        · have := hlower hh p.1 (List.mem_map.2 ⟨p, hp, rfl⟩)
          simp [lookupName, this]
      simp only [getAttribute, hl]
    rw [hget, attributeValue_of_nodup _ hnodup]
  refine ⟨?_, hview, ?_, stripNewlines_eq_self, ?_, ?_, ?_, by decide⟩
  · have h := congrArg (List.map Prod.fst) hview
    simpa [List.map_map, Function.comp, getAttributeNames] using h
  · have h := congrArg (List.map (fun p : String × String => (p.1, stripNewlines p.2))) hview
    simpa [List.map_map, Function.comp, Control.fieldValue] using h
  · have := congrArg List.length hview
    simpa using this
  · intro k hk
    obtain ⟨a, _, _, _, hka⟩ := mem_discover_controls st c k hk
    rw [hka]
    simp [createSetter]
  · intro h
    have := congrArg List.length hview
    rw [h] at this
    simpa using this

/-- Witness of C1 on the scenario document: discovery of element `0`. -/
theorem C1_discovery_builds_controls_witness :
    (getAttributeNames ((connectedCallback (constructed scenarioDoc)).comps 0).attrs).Nodup
    ∧ (((connectedCallback (constructed scenarioDoc)).comps 0).html = true →
        ∀ a ∈ getAttributeNames ((connectedCallback (constructed scenarioDoc)).comps 0).attrs,
          asciiLower a = a)
    ∧ (discover (connectedCallback (constructed scenarioDoc)) 0).controls.map
        (fun k => (k.label, k.inputValue)) = [("volume", "5"), ("muted", "false")] :=
  ⟨by decide, fun _ => by decide,
   (C1_discovery_builds_controls (connectedCallback (constructed scenarioDoc)) 0
      (by decide) (fun _ => by decide)).2.1⟩

/-- C2, the claim as stated fails: on the panel built for element `0` of
`oddNamesDoc`, submitting the `viewBox` control with `v` leaves `viewBox` at
its old value and adds a new attribute `viewbox="v"`, because `setAttribute`
lowercases the name on an HTML element; submitting the `=a` control makes
`setAttribute` throw, and no attribute is set. -/
theorem C2_odd_names_counterexample :
    createSetter 0 0 true (oddNamesDoc 0).attrs "viewBox" ∈ oddNamesPanel.controls
    ∧ ((submitHandler oddNamesPanel (createSetter 0 0 true (oddNamesDoc 0).attrs "viewBox")
          "v" { cancelable := true, defaultPrevented := false }).1.comps 0).attrs
        = [("viewBox", "0 0 1 1"), ("title", "a\nb"), ("=a", "1"), ("viewbox", "v")]
    ∧ createSetter 2 0 true (oddNamesDoc 0).attrs "=a" ∈ oddNamesPanel.controls
    ∧ ((submitHandler oddNamesPanel (createSetter 2 0 true (oddNamesDoc 0).attrs "=a")
          "v" { cancelable := true, defaultPrevented := false }).1.comps 0).attrs
        = [("viewBox", "0 0 1 1"), ("title", "a\nb"), ("=a", "1")]
    ∧ (submitHandler oddNamesPanel (createSetter 2 0 true (oddNamesDoc 0).attrs "=a")
          "v" { cancelable := true, defaultPrevented := false }).2.2
        = some "InvalidCharacterError" := by
  decide

/-- C2 as amended: a control `k` synthesized by discovery of component `c` is
bound to `c` and to one of the discovered attribute names.  Running its submit
listener in any later state `s` with input text `v` on a cancelable submit
event marks the event as default-prevented and keeps the panel, every other
element, and the listeners of `c`.  When the attribute name is a valid
attribute name and, if `c` is an HTML element, unchanged by ASCII lowercasing,
the listener sets that attribute of `c` to exactly `v`, keeps every other
attribute of `c` (value and position) and throws nothing.  When the name is
not a valid attribute name the listener throws and changes nothing. -/
theorem C2_submit_sets_only_its_attribute (st : State) (c : ElemId) (k : Control)
    (hk : k ∈ (discover st c).controls) (s : State) (v : String) (e : Event)
    (he : e.cancelable = true) :
    k.target = c
    ∧ k.attributeName ∈ getAttributeNames (st.comps c).attrs
    ∧ (submitHandler s k v e).2.1.defaultPrevented = true
    ∧ (submitHandler s k v e).1.log = s.log
    ∧ (submitHandler s k v e).1.controls = s.controls
    ∧ (submitHandler s k v e).1.observers = s.observers
    ∧ (∀ d, d ≠ c → (submitHandler s k v e).1.comps d = s.comps d)
    ∧ ((submitHandler s k v e).1.comps c).listeners = (s.comps c).listeners
    ∧ ((submitHandler s k v e).1.comps c).html = (s.comps c).html
    ∧ (validAttributeName k.attributeName = true →
        ((s.comps c).html = true → asciiLower k.attributeName = k.attributeName) →
        attributeValue ((submitHandler s k v e).1.comps c).attrs k.attributeName = some v
        ∧ getAttribute (s.comps c).html ((submitHandler s k v e).1.comps c).attrs
            k.attributeName = some v
        ∧ (∀ b, b ≠ k.attributeName →
            attributeValue ((submitHandler s k v e).1.comps c).attrs b
              = attributeValue (s.comps c).attrs b)
        ∧ ((submitHandler s k v e).1.comps c).attrs.filter (fun p => p.1 ≠ k.attributeName)
            = (s.comps c).attrs.filter (fun p => p.1 ≠ k.attributeName)
        ∧ getAttributeNames ((submitHandler s k v e).1.comps c).attrs
            = (if k.attributeName ∈ getAttributeNames (s.comps c).attrs
               then getAttributeNames (s.comps c).attrs
               else getAttributeNames (s.comps c).attrs ++ [k.attributeName])
        ∧ (submitHandler s k v e).2.2 = none)
    ∧ (validAttributeName k.attributeName = false →
        (submitHandler s k v e).1.comps = s.comps
        ∧ (submitHandler s k v e).2.2 = some "InvalidCharacterError") := by
  obtain ⟨a, ha, _, _, hka⟩ := mem_discover_controls st c k hk
  have ht : k.target = c := by rw [hka]; rfl
  have hattr : k.attributeName = a := by rw [hka]; rfl
  subst ht
  obtain ⟨_, _, f3, f4, _, f6, f7⟩ := submitHandler_frame s k v e
  have hok := submitHandler_ok s k v e
  have herr := submitHandler_error s k v e
  refine ⟨rfl, hattr ▸ ha, ?_, f6, f3, f4, ?_, ?_, ?_, ?_, ?_⟩
  · rw [f7]; simp [Event.preventDefault, he]
  · intro d hd
    cases hv : validAttributeName k.attributeName
    · rw [herr hv]
    · rw [hok hv]; simp [Function.update_noteq hd]
  · cases hv : validAttributeName k.attributeName
    · rw [herr hv]
    · rw [hok hv]; simp
  · cases hv : validAttributeName k.attributeName
    · rw [herr hv]
    · rw [hok hv]; simp
  · intro hv hl
    have hname : lookupName (s.comps k.target).html k.attributeName = k.attributeName := by
      cases hh : (s.comps k.target).html
      · rfl
      · simp [lookupName, hl hh]
    rw [hok hv]
    simp only [Function.update_same, hname, getAttribute]
    exact ⟨attributeValue_setAttributeValue_same _ _ _,
      attributeValue_setAttributeValue_same _ _ _,
      fun b hb => attributeValue_setAttributeValue_ne _ _ _ _ hb,
      setAttributeValue_filter_ne _ _ _, getAttributeNames_setAttributeValue _ _ _, trivial⟩
  · intro hv
    rw [herr hv]
    exact ⟨rfl, rfl⟩

/-- Witness of C2: the `volume` control of the scenario panel, submitted with
`10` after the panel was built. -/
theorem C2_submit_sets_only_its_attribute_witness :
    createSetter 0 0 true (scenarioDoc 0).attrs "volume"
        ∈ (discover (connectedCallback (constructed scenarioDoc)) 0).controls
    ∧ (({ cancelable := true, defaultPrevented := false } : Event).cancelable = true)
    ∧ validAttributeName "volume" = true
    ∧ asciiLower "volume" = "volume"
    ∧ attributeValue ((submitHandler scenarioPanel
          (createSetter 0 0 true (scenarioDoc 0).attrs "volume") "10"
          { cancelable := true, defaultPrevented := false }).1.comps 0).attrs "volume"
        = some "10" :=
  ⟨by decide, rfl, by decide, by decide,
   ((C2_submit_sets_only_its_attribute (connectedCallback (constructed scenarioDoc)) 0
      (createSetter 0 0 true (scenarioDoc 0).attrs "volume") (by decide) scenarioPanel "10"
      { cancelable := true, defaultPrevented := false } rfl).2.2.2.2.2.2.2.2.2.1
      (by decide) (fun _ => by decide)).1⟩

/-- C3: discovery of a component registers, for each of its attribute names
`a`, a listener on channel `communicate-<a>-update`; for a payload whose
element, property and value read as `x`, `p` and `v`, that listener turns the
log text `L` into `L` followed by the line
`Event "communicate-<a>-update" / <x> set <p>="<v>"` and a newline, and touches
nothing else; for `volume`, `x`, `volume`, `10` the line is
`Event "communicate-volume-update" / x set volume="10"`. -/
theorem C3_relay_appends_formatted_line (st : State) (c : ElemId) (a : String)
    (ha : a ∈ getAttributeNames (st.comps c).attrs)
    (props : List (String × JSValue)) (x p v : String)
    (hx : getProp props "element" = .string x)
    (hp : getProp props "property" = .string p)
    (hv : getProp props "value" = .string v) (s : State) :
    ({ type := "communicate-" ++ a ++ "-update", attributeName := a } : Listener)
        ∈ ((discover st c).comps c).listeners
    ∧ relayHandler a (some props) s.log
        = .ok (s.log ++ ("Event \"communicate-" ++ a ++ "-update\" / " ++ x ++ " set "
                ++ p ++ "=\"" ++ v ++ "\"") ++ "\n")
    ∧ (runListener s { type := "communicate-" ++ a ++ "-update", attributeName := a }
          (some props)).log
        = s.log ++ ("Event \"communicate-" ++ a ++ "-update\" / " ++ x ++ " set "
                ++ p ++ "=\"" ++ v ++ "\"") ++ "\n"
    ∧ (runListener s { type := "communicate-" ++ a ++ "-update", attributeName := a }
          (some props)).controls = s.controls
    ∧ (runListener s { type := "communicate-" ++ a ++ "-update", attributeName := a }
          (some props)).comps = s.comps
    ∧ (notify scenarioPanel 0 "communicate-volume-update" (some scenarioPayload)).log
        = scenarioPanel.log ++ "Event \"communicate-volume-update\" / x set volume=\"10\""
            ++ "\n" := by
  have hq : "\"\n" = "\"" ++ "\n" := by decide
  have hline : relayHandler a (some props) s.log
      = .ok (s.log ++ ("Event \"communicate-" ++ a ++ "-update\" / " ++ x ++ " set "
                ++ p ++ "=\"" ++ v ++ "\"") ++ "\n") := by
    simp only [relayHandler, logLine, hx, hp, hv, JSValue.toJSString, hq,
      String.append_assoc]
  refine ⟨?_, hline, ?_, ?_, ?_, by decide⟩
  · rw [discover_listeners]
    apply List.mem_append_right
    exact List.mem_map.2 ⟨a, ha, rfl⟩
  · simp only [runListener, hline]
  · simp only [runListener, hline]
  · simp only [runListener, hline]

/-- Witness of C3: the `volume` attribute of the scenario component and the
scenario payload. -/
theorem C3_relay_appends_formatted_line_witness :
    "volume" ∈ getAttributeNames ((connectedCallback (constructed scenarioDoc)).comps 0).attrs
    ∧ getProp scenarioPayload "element" = .string "x"
    ∧ getProp scenarioPayload "property" = .string "volume"
    ∧ getProp scenarioPayload "value" = .string "10"
    ∧ relayHandler "volume" (some scenarioPayload) scenarioPanel.log
        = .ok (scenarioPanel.log ++ ("Event \"communicate-" ++ "volume" ++ "-update\" / "
                ++ "x" ++ " set " ++ "volume" ++ "=\"" ++ "10" ++ "\"") ++ "\n") :=
  ⟨by decide, by decide, by decide, by decide,
   (C3_relay_appends_formatted_line (connectedCallback (constructed scenarioDoc)) 0 "volume"
      (by decide) scenarioPayload "x" "volume" "10" (by decide) (by decide) (by decide)
      scenarioPanel).2.1⟩

/-- C4: evaluation of the code after the scenario component was discovered
twice: one notification on `communicate-volume-update` appends the line twice,
while after a single discovery it appends it once. -/
theorem C4_rediscovery_duplicates_log_lines :
    (notify scenarioPanel 0 "communicate-volume-update" (some scenarioPayload)).log
        = "Event \"communicate-volume-update\" / x set volume=\"10\"\n"
    ∧ (notify (slotchange scenarioPanel [0]) 0 "communicate-volume-update"
          (some scenarioPayload)).log
        = "Event \"communicate-volume-update\" / x set volume=\"10\"\n"
            ++ "Event \"communicate-volume-update\" / x set volume=\"10\"\n"
    ∧ ((slotchange scenarioPanel [0]).comps 0).listeners
        = [{ type := "communicate-volume-update", attributeName := "volume" },
           { type := "communicate-muted-update", attributeName := "muted" },
           { type := "communicate-volume-update", attributeName := "volume" },
           { type := "communicate-muted-update", attributeName := "muted" }] := by
  decide

/-- C5, the claim as stated fails: the observer of the scenario component
receives the size `(300.5, 200)`; the `width` attribute becomes `300.5px`,
which is not of the form `<integer>px`. -/
theorem C5_fractional_width_counterexample :
    0 ∈ scenarioPanel.observers
    ∧ attributeValue ((resizeCallback scenarioPanel 0
          [{ width := { whole := 300, frac := [5] },
             height := { whole := 200, frac := [] } }]).comps 0).attrs "width"
        = some "300.5px"
    ∧ isIntegerPx "300.5px" = false := by
  decide

/-- C5 as amended: after a resize callback whose last entry is `e`, the
`width` attribute of the captured component is the decimal text of `e.width`
followed by `px` and its `height` attribute the decimal text of `e.height`
followed by `px` (the last entry wins); every other attribute keeps its value
and position, the listeners, the other elements and the panel are unchanged;
for whole numbers `w` and `h` the two values are `<w>px` and `<h>px`, of the
form `<integer>px`; for `(300, 200)` they are `300px` and `200px`. -/
theorem C5_resize_forwards_size (st : State) (c : ElemId)
    (entries : List ResizeObserverEntry) (e : ResizeObserverEntry) (w h : Nat) :
    attributeValue ((resizeCallback st c (entries ++ [e])).comps c).attrs "width"
        = some (e.width.toJSString ++ "px")
    ∧ attributeValue ((resizeCallback st c (entries ++ [e])).comps c).attrs "height"
        = some (e.height.toJSString ++ "px")
    ∧ (∀ b, b ≠ "width" → b ≠ "height" →
        attributeValue ((resizeCallback st c (entries ++ [e])).comps c).attrs b
          = attributeValue (st.comps c).attrs b)
    ∧ ((resizeCallback st c (entries ++ [e])).comps c).attrs.filter
          (fun p => p.1 ≠ "width" && p.1 ≠ "height")
        = (st.comps c).attrs.filter (fun p => p.1 ≠ "width" && p.1 ≠ "height")
    ∧ ((resizeCallback st c (entries ++ [e])).comps c).listeners = (st.comps c).listeners
    ∧ (∀ d, d ≠ c → (resizeCallback st c (entries ++ [e])).comps d = st.comps d)
    ∧ (resizeCallback st c (entries ++ [e])).log = st.log
    ∧ (resizeCallback st c (entries ++ [e])).controls = st.controls
    ∧ (resizeCallback st c (entries ++ [e])).observers = st.observers
    ∧ attributeValue ((resizeCallback st c
          (entries ++ [{ width := JSNumber.ofNat w, height := JSNumber.ofNat h }])).comps c).attrs
          "width" = some (toString w ++ "px")
    ∧ attributeValue ((resizeCallback st c
          (entries ++ [{ width := JSNumber.ofNat w, height := JSNumber.ofNat h }])).comps c).attrs
          "height" = some (toString h ++ "px")
    ∧ isIntegerPx (toString w ++ "px") = true
    ∧ isIntegerPx (toString h ++ "px") = true
    ∧ ((resizeCallback scenarioPanel 0
          [{ width := JSNumber.ofNat 300, height := JSNumber.ofNat 200 }]).comps 0).attrs
        = [("volume", "5"), ("muted", "false"), ("width", "300px"), ("height", "200px")] := by
  have hwidth : ∀ e' : ResizeObserverEntry,
      attributeValue ((resizeCallback st c (entries ++ [e'])).comps c).attrs "width"
        = some (e'.width.toJSString ++ "px") := by
    intro e'
    simp only [resizeCallback, Function.update_same, resizeAttrs_snoc]
    rw [attributeValue_setAttributeValue_ne _ _ _ _ (by decide), attributeValue_setAttributeValue_same]
  have hheight : ∀ e' : ResizeObserverEntry,
      attributeValue ((resizeCallback st c (entries ++ [e'])).comps c).attrs "height"
        = some (e'.height.toJSString ++ "px") := by
    intro e'
    simp only [resizeCallback, Function.update_same, resizeAttrs_snoc]
    rw [attributeValue_setAttributeValue_same]
  refine ⟨hwidth e, hheight e, ?_, ?_, ?_, ?_, rfl, rfl, rfl, ?_, ?_,
    isIntegerPx_toString w, isIntegerPx_toString h, by decide⟩
  · intro b hbw hbh
    simp only [resizeCallback, Function.update_same]
    exact resizeAttrs_other _ _ _ _ hbw hbh
  · simp only [resizeCallback, Function.update_same]
    exact resizeAttrs_filter _ _ _
  · simp [resizeCallback]
  · intro d hd
    simp [resizeCallback, Function.update_noteq hd]
  · rw [hwidth, ofNat_toJSString]
  · rw [hheight, ofNat_toJSString]

/-- C6: in a state whose controls all come from the node supply, discovery of
a component `c` yields a control panel that shares no control, and no node,
with the previous panel, that holds one control per attribute name of `c`, in
order, each bound to `c` and showing the current value, and the log text is
what it was. -/
theorem C6_rediscovery_replaces_controls_keeps_log (st : State) (c : ElemId)
    (hinv : NodesAllocated st) :
    (∀ k ∈ (discover st c).controls, ∀ k0 ∈ st.controls, k.node ≠ k0.node)
    ∧ (∀ k ∈ (discover st c).controls, k ∉ st.controls)
    ∧ (discover st c).controls.map (fun k => k.label) = getAttributeNames (st.comps c).attrs
    ∧ (∀ k ∈ (discover st c).controls,
        k.target = c ∧ k.attributeName = k.label
        ∧ k.inputValue
            = attrValueToString (getAttribute (st.comps c).html (st.comps c).attrs k.label))
    ∧ (discover st c).log = st.log
    ∧ NodesAllocated (discover st c) := by
  have hfresh : ∀ k ∈ (discover st c).controls, ∀ k0 ∈ st.controls, k.node ≠ k0.node := by
    intro k hk k0 hk0 heq
    obtain ⟨_, _, hge, _, _⟩ := mem_discover_controls st c k hk
    have := hinv k0 hk0
    omega
  refine ⟨hfresh, ?_, ?_, ?_, discover_log st c, discover_nodesAllocated st c⟩
  · intro k hk hmem
    exact hfresh k hk k hmem rfl
  · have h := congrArg (List.map Prod.fst) (discover_controls_view st c)
    simpa [List.map_map, Function.comp, getAttributeNames] using h
  · intro k hk
    obtain ⟨a, _, _, _, hka⟩ := mem_discover_controls st c k hk
    rw [hka]
    simp [createSetter]

/-- Witness of C6: the scenario panel, built for element `0`, discovers
element `1`. -/
theorem C6_rediscovery_replaces_controls_keeps_log_witness :
    NodesAllocated scenarioPanel
    ∧ (∀ k ∈ (discover scenarioPanel 1).controls, k ∉ scenarioPanel.controls)
    ∧ (discover scenarioPanel 1).log = scenarioPanel.log :=
  ⟨by unfold NodesAllocated; decide,
   (C6_rediscovery_replaces_controls_keeps_log scenarioPanel 1
      (by unfold NodesAllocated; decide)).2.1,
   (C6_rediscovery_replaces_controls_keeps_log scenarioPanel 1
      (by unfold NodesAllocated; decide)).2.2.2.2.1⟩

/-- C7: a `slotchange` notification that finds no projected element leaves
the whole state as it was, whether one listener runs or the notification runs
every registered listener: controls, log text, listeners on the components and
size observers are unchanged; the two controls of the scenario panel stay. -/
theorem C7_empty_slotchange_is_noop (st : State) :
    slotchangeHandler st [] = st
    ∧ slotchange st [] = st
    ∧ (slotchange scenarioPanel []).controls = scenarioPanel.controls
    ∧ scenarioPanel.controls.map (fun k => k.label) = ["volume", "muted"] := by
  refine ⟨rfl, ?_, by decide, by decide⟩
  exact iterate_keeps (fun s => s = st) (fun s => slotchangeHandler s []) (fun s hs => hs)
    st.slotListeners st rfl

/-- C8: after any sequence of actions on a freshly constructed panel in which
`connectedCallback` was called at least once (with `disconnectedCallback`
calls and any other events in between), exactly one `slotchange` listener is
registered and `controlsAdded` is set; a further `connectedCallback` or
`disconnectedCallback` changes nothing; one `slotchange` notification runs
discovery once per projected element; the first call on the constructed panel
is the one that registers the listener. -/
theorem C8_single_slotchange_listener (doc : ElemId → Component) (actions : List Action)
    (h : Action.connected ∈ actions) :
    (runActions (constructed doc) actions).slotListeners = 1
    ∧ (runActions (constructed doc) actions).controlsAdded = true
    ∧ connectedCallback (runActions (constructed doc) actions)
        = runActions (constructed doc) actions
    ∧ disconnectedCallback (runActions (constructed doc) actions)
        = runActions (constructed doc) actions
    ∧ (∀ assigned, slotchange (runActions (constructed doc) actions) assigned
        = assigned.foldl discover (runActions (constructed doc) actions))
    ∧ (constructed doc).slotListeners = 0
    ∧ (constructed doc).controlsAdded = false
    ∧ (connectedCallback (constructed doc)).slotListeners = 1
    ∧ (connectedCallback (constructed doc)).controlsAdded = true := by
  obtain ⟨h1, _, h3⟩ := runActions_flags actions (constructed doc) rfl
  have hc := h3 h
  have hn : (runActions (constructed doc) actions).slotListeners = 1 := by
    rw [h1, hc]; rfl
  refine ⟨hn, hc, connectedCallback_of_controlsAdded _ hc, rfl, ?_, rfl, rfl, rfl, rfl⟩
  intro assigned
  simp only [slotchange, hn]
  rfl

/-- Witness of C8: connect, disconnect, connect, a `slotchange`, connect. -/
theorem C8_single_slotchange_listener_witness :
    Action.connected ∈ [Action.connected, Action.disconnected, Action.connected,
        Action.slotchange [0], Action.connected]
    ∧ (runActions (constructed scenarioDoc) [Action.connected, Action.disconnected,
        Action.connected, Action.slotchange [0], Action.connected]).slotListeners = 1 :=
  ⟨List.Mem.head _,
   (C8_single_slotchange_listener scenarioDoc [Action.connected, Action.disconnected,
      Action.connected, Action.slotchange [0], Action.connected] (List.Mem.head _)).1⟩

/-- C9, the claim as stated fails: a notification without detail on the
subscribed channel `communicate-volume-update` of the scenario component makes
the listener throw, and no line is appended to the log. -/
theorem C9_no_detail_counterexample :
    ({ type := "communicate-volume-update", attributeName := "volume" } : Listener)
        ∈ (scenarioPanel.comps 0).listeners
    ∧ relayHandler "volume" none scenarioPanel.log = .error "TypeError"
    ∧ (notify scenarioPanel 0 "communicate-volume-update" none).log = scenarioPanel.log :=
  ⟨by decide, rfl, by decide⟩

/-- C9 as amended: for a payload that has a detail object, the listener
appends exactly one line, in which the element, property and value fields are
rendered by string conversion, an absent field as the text `undefined` (so an
empty detail object gives `undefined set undefined="undefined"`); for a payload
without detail the listener throws, the state is unchanged, and a later
notification is logged as if the failed one had not arrived. -/
theorem C9_missing_fields_render_undefined (a L : String)
    (props : List (String × JSValue)) (key : String) (st : State) (c : ElemId)
    (type : String) (later : Detail) :
    relayHandler a (some props) L
        = .ok (L ++ ("Event \"communicate-" ++ a ++ "-update\" / "
            ++ (getProp props "element").toJSString ++ " set "
            ++ (getProp props "property").toJSString ++ "=\""
            ++ (getProp props "value").toJSString ++ "\"") ++ "\n")
    ∧ (getProp (props.filter (fun q => q.1 ≠ key)) key).toJSString = "undefined"
    ∧ relayHandler a (some []) L
        = .ok (L ++ ("Event \"communicate-" ++ a ++ "-update\" / "
            ++ "undefined set undefined=\"undefined\"") ++ "\n")
    ∧ relayHandler a none L = .error "TypeError"
    ∧ notify st c type none = st
    ∧ notify (notify st c type none) c type later = notify st c type later := by
  have hq : "\"\n" = "\"" ++ "\n" := by decide
  have hu2 : "undefined set undefined=\"undefined\""
      = "undefined" ++ (" set " ++ ("undefined" ++ ("=\"" ++ ("undefined" ++ "\"")))) := by
    decide
  refine ⟨?_, ?_, ?_, rfl, notify_none st c type, by rw [notify_none]⟩
  · simp only [relayHandler, logLine, hq, String.append_assoc]
  · have hnone : ∀ ps : List (String × JSValue),
        getProp (ps.filter (fun q => q.1 ≠ key)) key = .undefined := by
      intro ps
      induction ps with
      | nil => rfl
      | cons q rest ih =>
        obtain ⟨k, w⟩ := q
        by_cases hk : k = key
        · simpa [List.filter_cons, hk] using ih
        · simp only [List.filter_cons, ne_eq, hk, not_false_eq_true, decide_True, if_true,
            getProp, if_false]
          exact ih
    rw [hnone]
    rfl
  · simp only [relayHandler, logLine, getProp, JSValue.toJSString, hq, hu2,
      String.append_assoc]

/-- C10: evaluation of the code on the scenario panel: no observer exists on
the constructed panel, one after the first discovery, two for the same
component after it is discovered again, and after a different component is
discovered the observer of the old one is still there and still forwards sizes
to the old component. -/
theorem C10_rediscovery_adds_observers :
    (connectedCallback (constructed scenarioDoc)).observers = []
    ∧ scenarioPanel.observers = [0]
    ∧ (slotchange scenarioPanel [0]).observers = [0, 0]
    ∧ (slotchange scenarioPanel [1]).observers = [0, 1]
    ∧ attributeValue ((resizeCallback (slotchange scenarioPanel [1]) 0
          [{ width := JSNumber.ofNat 300, height := JSNumber.ofNat 200 }]).comps 0).attrs
          "width" = some "300px" := by
  decide

end EdiromDemo
